import Mathlib

/-!
# Movie Portal: verification of the API route handlers and UI reconciliation

Shallow embedding of `src/app/api/movies/route.ts` (the GET/POST/PUT/DELETE
handlers) and of the reconciliation logic of `src/app/page.tsx`
(`handleSubmit`, `handleDelete`) of the Movie Portal repository.

JavaScript request-body values are modelled by `JsonVal` (string, integer
number, or array of strings — the shapes the handlers actually receive from
JSON bodies; fractional numbers play no role in any property below).
A request body is a record of optional fields (`none` = field absent).
Exceptions are modelled as values: a body that fails JSON parsing is `none`,
and every store operation returns `Except StoreError`.

The Prisma/MongoDB record store is external to the repository and its schema
file is not part of the sources; it is modelled from the specification
(§3: `id` opaque unique non-empty, assigned by the store; `title` text;
`actors` sequence of strings; `year` integer; §4.1: `update`/`delete` fail
with `NotFound` on a missing `id`, any operation can fail on connectivity).
Prisma's runtime rejection of values that do not fit the schema (e.g. a
`NaN` year produced by `parseInt`) is modelled by the `invalidData` error.
-/

namespace MoviePortal

/-- A JavaScript value as it occurs in the request bodies of this API:
a string, an (integer) number, or an array of strings. -/
inductive JsonVal where
  | str (s : String)
  | num (n : Int)
  | arr (xs : List String)
deriving Repr, DecidableEq

/-- JavaScript truthiness of the values above: the empty string and the
number 0 are falsy; every array (even `[]`) is truthy. -/
def JsonVal.truthy : JsonVal → Bool
  | .str s => s != ""
  | .num n => n != 0
  | .arr _ => true

/-- Truthiness of an optional body field: an absent field (`undefined`)
is falsy; a present field has the truthiness of its value. -/
def truthyField : Option JsonVal → Bool
  | none => false
  | some v => v.truthy

/-- JavaScript `String.prototype.split(',')` on the character list of a
string: cut at every comma; `""` splits to one empty segment. -/
def splitOnComma : List Char → List (List Char)
  | [] => [[]]
  | c :: r =>
    match splitOnComma r with
    | [] => if c = ',' then [[], []] else [[c]]
    | g :: gs => if c = ',' then [] :: g :: gs else (c :: g) :: gs

/-- JavaScript `String.prototype.trim()`: strip leading and trailing
whitespace characters. -/
def trimChars (l : List Char) : List Char :=
  ((l.dropWhile Char.isWhitespace).reverse.dropWhile Char.isWhitespace).reverse

/-- `actors.split(',').map((actor) => actor.trim())` from the POST and PUT
handlers: split on commas, then trim each segment. Empty segments are kept,
exactly as in the source. -/
def jsSplitTrim (s : String) : List String :=
  (splitOnComma s.toList).map (fun seg => String.mk (trimChars seg))

/-- The normalization described by the specification's words (§4.2 rule 2):
split on commas, trim whitespace from each segment, and drop empty
segments. Stated from the spec only, to compare with `jsSplitTrim`. -/
def specNormalizeActors (s : String) : List String :=
  (jsSplitTrim s).filter (fun seg => seg != "")

/-- `typeof actors === 'string' ? actors.split(',').map(trim) : actors`:
a string is normalized to an array of trimmed segments, any other value is
passed to the store unchanged. -/
def normalizeActors : JsonVal → JsonVal
  | .str s => .arr (jsSplitTrim s)
  | v => v

/-- Decimal digits of a character list folded into a natural number. -/
def digitsToNat (l : List Char) : Nat :=
  l.foldl (fun a c => 10 * a + (c.toNat - 48)) 0

/-- The longest digit prefix, or `none` when it is empty (`NaN`). -/
def parseDigits (l : List Char) : Option Nat :=
  let ds := l.takeWhile Char.isDigit
  if ds.isEmpty then none else some (digitsToNat ds)

/-- JavaScript `parseInt(s, 10)`: skip leading whitespace, read an optional
sign and then as many decimal digits as possible; `NaN` (here `none`) when
no digit follows. -/
def parseIntStr (s : String) : Option Int :=
  match s.toList.dropWhile Char.isWhitespace with
  | '-' :: r => (parseDigits r).map (fun n => -(n : Int))
  | '+' :: r => (parseDigits r).map (fun n => (n : Int))
  | r => (parseDigits r).map (fun n => (n : Int))

/-- `parseInt(year, 10)` on a JavaScript value: a value is first converted
to a string (an integer number round-trips to itself, an array joins its
elements with commas), then parsed; `none` models `NaN`. -/
def parseIntJS : JsonVal → Option Int
  | .str s => parseIntStr s
  | .num n => some n
  | .arr xs => parseIntStr (String.intercalate "," xs)

/-- A persisted movie record (Prisma model `Movie`):
`id String, title String, actors String[], year Int`. -/
structure Movie where
  id : String
  title : String
  actors : List String
  year : Int
deriving Repr, DecidableEq

/-- Modelled from the spec: the record store. `records` is the stored
sequence in store order; `counter` drives the store's assignment of fresh
opaque identifiers (spec §3: `id` is assigned by the store on creation,
unique and immutable). -/
structure Store where
  counter : Nat
  records : List Movie
deriving Repr, DecidableEq

/-- Modelled from the spec: the opaque identifier the store assigns to the
`k`-th created record. Any injective generator of non-empty ids models the
spec's "opaque identifier, assigned by the store, unique". -/
def mkId (k : Nat) : String :=
  String.mk (List.replicate (k + 1) 'm')

/-- The store-layer failures of spec §4.1/§7: `notFound` (no record has the
referenced `id`), `invalidData` (the write does not fit the schema, e.g. a
`NaN` year — Prisma's runtime validation), `connection` (store
unreachable, `PersistenceError`). -/
inductive StoreError where
  | notFound
  | invalidData
  | connection
deriving Repr, DecidableEq

/-- The `data` object the handlers pass to `prisma.movie.create/update`:
the raw `title` value, the normalized `actors` value, and the result of
`parseInt(year, 10)` (`none` = `NaN`). -/
structure MovieData where
  title : JsonVal
  actors : JsonVal
  year : Option Int
deriving Repr, DecidableEq

/-- Modelled from the spec: `prisma.movie.findMany()` — the full stored
sequence, or a connectivity failure. -/
def storeFindMany (conn : Bool) (s : Store) : Except StoreError (List Movie) :=
  if !conn then .error .connection
  else .ok s.records

/-- Modelled from the spec: `prisma.movie.create({data})` — rejects data
that does not fit the schema (title not a string, actors not an array,
`NaN` year), otherwise appends a record under a freshly assigned id. -/
def storeCreate (conn : Bool) (s : Store) (d : MovieData) :
    Except StoreError (Store × Movie) :=
  if !conn then .error .connection
  else match d.title, d.actors, d.year with
    | .str t, .arr a, some y =>
      let m : Movie := ⟨mkId s.counter, t, a, y⟩
      .ok (⟨s.counter + 1, s.records ++ [m]⟩, m)
    | _, _, _ => .error .invalidData

/-- Modelled from the spec: `prisma.movie.update({where: {id}, data})` —
fails with `notFound` when no record carries `id`, rejects ill-typed data,
otherwise replaces the record's content fields in place. -/
def storeUpdate (conn : Bool) (s : Store) (idv : JsonVal) (d : MovieData) :
    Except StoreError (Store × Movie) :=
  if !conn then .error .connection
  else match idv, d.title, d.actors, d.year with
    | .str i, .str t, .arr a, some y =>
      if s.records.any (fun m => m.id == i) then
        let m : Movie := ⟨i, t, a, y⟩
        .ok (⟨s.counter, s.records.map (fun m0 => if m0.id == i then m else m0)⟩, m)
      else .error .notFound
    | _, _, _, _ => .error .invalidData

/-- Modelled from the spec: `prisma.movie.delete({where: {id}})` — fails
with `notFound` when no record carries `id`, otherwise removes the record
with that id (ids are unique in the store). -/
def storeDelete (conn : Bool) (s : Store) (idv : JsonVal) :
    Except StoreError Store :=
  if !conn then .error .connection
  else match idv with
    | .str i =>
      if s.records.any (fun m => m.id == i) then
        .ok ⟨s.counter, s.records.filter (fun m => m.id != i)⟩
      else .error .notFound
    | _ => .error .invalidData

/-- A parsed JSON request body: each field is present (`some`) or absent
(`none`). A request whose body fails to parse is modelled as `none` at the
`Option Body` level. -/
structure Body where
  id : Option JsonVal
  title : Option JsonVal
  actors : Option JsonVal
  year : Option JsonVal
deriving Repr, DecidableEq

/-- The JSON payload of a response: a movie list (GET), a single movie
(POST/PUT), an `{error}` object, or a `{message}` object (DELETE). -/
inductive RespBody where
  | movies (ms : List Movie)
  | movie (m : Movie)
  | err (s : String)
  | msg (s : String)
deriving Repr, DecidableEq

/-- An HTTP response: status code and JSON payload. -/
structure Response where
  status : Nat
  body : RespBody
deriving Repr, DecidableEq

/-- The GET handler: 200 with all movies, 500 on store failure. -/
def GET (conn : Bool) (s : Store) : Response :=
  match storeFindMany conn s with
  | .ok ms => ⟨200, .movies ms⟩
  | .error _ => ⟨500, .err "Failed to fetch movies"⟩

/-- The POST handler. `req = none` models a body whose JSON parsing threw
(caught, 500). `if (!title || !actors || !year)` is rendered as its
De Morgan dual: proceed only when every field is present and truthy. -/
def POST (conn : Bool) (s : Store) (req : Option Body) : Response × Store :=
  match req with
  | none => (⟨500, .err "Failed to add movie"⟩, s)
  | some b =>
    match b.title, b.actors, b.year with
    | some t, some a, some y =>
      if t.truthy && a.truthy && y.truthy then
        match storeCreate conn s ⟨t, normalizeActors a, parseIntJS y⟩ with
        | .ok (s2, m) => (⟨201, .movie m⟩, s2)
        | .error _ => (⟨500, .err "Failed to add movie"⟩, s)
      else (⟨400, .err "Missing required fields"⟩, s)
    | _, _, _ => (⟨400, .err "Missing required fields"⟩, s)

/-- The PUT handler: like POST but `id` is also required and the write goes
through `storeUpdate`; store-side not-found surfaces as the catch-all 500. -/
def PUT (conn : Bool) (s : Store) (req : Option Body) : Response × Store :=
  match req with
  | none => (⟨500, .err "Failed to update movie"⟩, s)
  | some b =>
    match b.id, b.title, b.actors, b.year with
    | some i, some t, some a, some y =>
      if i.truthy && t.truthy && a.truthy && y.truthy then
        match storeUpdate conn s i ⟨t, normalizeActors a, parseIntJS y⟩ with
        | .ok (s2, m) => (⟨200, .movie m⟩, s2)
        | .error _ => (⟨500, .err "Failed to update movie"⟩, s)
      else (⟨400, .err "Missing required fields"⟩, s)
    | _, _, _, _ => (⟨400, .err "Missing required fields"⟩, s)

/-- The DELETE handler: 400 when `id` is missing (falsy), 200 with a
confirmation message on success, 500 on any store failure. -/
def DELETE (conn : Bool) (s : Store) (req : Option Body) : Response × Store :=
  match req with
  | none => (⟨500, .err "Failed to delete movie"⟩, s)
  | some b =>
    match b.id with
    | some i =>
      if i.truthy then
        match storeDelete conn s i with
        | .ok s2 => (⟨200, .msg "Movie deleted successfully"⟩, s2)
        | .error _ => (⟨500, .err "Failed to delete movie"⟩, s)
      else (⟨400, .err "Missing movie ID"⟩, s)
    | none => (⟨400, .err "Missing movie ID"⟩, s)

/-- The client's local state after a reconciliation step: the mirrored
movie list and whether a failure alert was shown. -/
structure UIResult where
  movies : List Movie
  alerted : Bool
deriving Repr, DecidableEq

/-- `handleSubmit` reconciliation from `page.tsx`: on a 2xx response the
returned movie replaces the matching entry (when editing) or is appended
(when adding); otherwise an alert is shown and the list is untouched. -/
def handleSubmit (movies : List Movie) (editingMovie : Option Movie)
    (ok : Bool) (returned : Movie) : UIResult :=
  if ok then
    match editingMovie with
    | some _ => ⟨movies.map (fun m => if m.id == returned.id then returned else m), false⟩
    | none => ⟨movies ++ [returned], false⟩
  else ⟨movies, true⟩

/-- `handleDelete` reconciliation from `page.tsx`: on a 2xx response the
entry with the deleted id is filtered out; otherwise an alert is shown and
the list is untouched. -/
def handleDelete (movies : List Movie) (ok : Bool) (id : String) : UIResult :=
  if ok then ⟨movies.filter (fun m => m.id != id), false⟩
  else ⟨movies, true⟩

/-- Well-formedness of the store: every persisted id is non-empty and was
produced by a past value of the counter (its length is at most `counter`),
so `mkId counter` is always fresh. -/
def Store.WF (s : Store) : Prop :=
  ∀ m ∈ s.records, 0 < m.id.length ∧ m.id.length ≤ s.counter

theorem mkId_length (k : Nat) : (mkId k).length = k + 1 := by
  simp [mkId, String.length]

theorem mkId_ne_empty (k : Nat) : mkId k ≠ "" := by
  intro h
  have : (mkId k).length = 0 := by rw [h]; rfl
  simp [mkId_length] at this

theorem storeCreate_year_none (conn : Bool) (s : Store) (d : MovieData)
    (h : d.year = none) : ∃ e, storeCreate conn s d = .error e := by
  obtain ⟨dt, da, dy⟩ := d
  cases h
  cases conn
  · exact ⟨.connection, rfl⟩
  · cases dt <;> cases da <;> exact ⟨.invalidData, rfl⟩

theorem storeUpdate_year_none (conn : Bool) (s : Store) (idv : JsonVal)
    (d : MovieData) (h : d.year = none) :
    ∃ e, storeUpdate conn s idv d = .error e := by
  obtain ⟨dt, da, dy⟩ := d
  cases h
  cases conn
  · exact ⟨.connection, rfl⟩
  · cases idv <;> cases dt <;> cases da <;> exact ⟨.invalidData, rfl⟩

/-- Claim C1 (amended): for every create or update request whose `actors`
field is the single string `astr`, the persisted `actors` value is the
result of splitting `astr` on commas and trimming whitespace from each
segment — empty segments are kept, not dropped; in particular `"A, B ,C"`
is persisted as `["A","B","C"]` by both the POST and the PUT handler. -/
theorem actors_string_persisted_split_trimmed
    (s : Store) (b : Body) (t astr istr : String) (y : JsonVal) (yv : Int)
    (ht : b.title = some (.str t)) (htt : t ≠ "")
    (ha : b.actors = some (.str astr)) (hat : astr ≠ "")
    (hy : b.year = some y) (hyt : y.truthy = true)
    (hyv : parseIntJS y = some yv) :
    ((POST true s (some b)).2.records
        = s.records ++ [⟨mkId s.counter, t, jsSplitTrim astr, yv⟩])
    ∧ (b.id = some (.str istr) → istr ≠ "" →
        s.records.any (fun m => m.id == istr) = true →
        (PUT true s (some b)).2.records
          = s.records.map
              (fun m0 => if m0.id == istr then ⟨istr, t, jsSplitTrim astr, yv⟩ else m0))
    ∧ jsSplitTrim "A, B ,C" = ["A", "B", "C"] := by
  have htt' : (JsonVal.str t).truthy = true := by simp [JsonVal.truthy, htt]
  have hat' : (JsonVal.str astr).truthy = true := by simp [JsonVal.truthy, hat]
  refine ⟨?_, ?_, by decide⟩
  · simp [POST, ht, ha, hy, htt', hat', hyt, storeCreate, normalizeActors, hyv]
  · intro hid hi hany
    have hi' : (JsonVal.str istr).truthy = true := by simp [JsonVal.truthy, hi]
    simp [PUT, hid, ht, ha, hy, hi', htt', hat', hyt, storeUpdate,
      normalizeActors, hyv, hany]

/-- Claim C1 counterexample: for the input string `"A,,B"` the persisted
`actors` value is `["A","","B"]`, not the spec's split-trim-drop result
`["A","B"]`: the POST handler keeps empty segments. -/
theorem actors_empty_segment_kept_counterexample :
    ((POST true ⟨0, []⟩
        (some ⟨none, some (.str "T"), some (.str "A,,B"), some (.num 2000)⟩)).2.records.map
        Movie.actors ≠ [specNormalizeActors "A,,B"])
    ∧ ((POST true ⟨0, []⟩
        (some ⟨none, some (.str "T"), some (.str "A,,B"), some (.num 2000)⟩)).2.records.map
        Movie.actors = [["A", "", "B"]])
    ∧ specNormalizeActors "A,,B" = ["A", "B"] := by decide

/-- Witness for the amended C1 at a concrete input. -/
theorem actors_string_persisted_split_trimmed_witness :
    ((POST true ⟨0, []⟩
        (some ⟨some (.str "m"), some (.str "T"), some (.str "A, B ,C"), some (.num 2000)⟩)).2.records
      = [] ++ [⟨mkId 0, "T", jsSplitTrim "A, B ,C", 2000⟩])
    ∧ jsSplitTrim "A, B ,C" = ["A", "B", "C"] := by
  have h := actors_string_persisted_split_trimmed ⟨0, []⟩
    ⟨some (.str "m"), some (.str "T"), some (.str "A, B ,C"), some (.num 2000)⟩
    "T" "A, B ,C" "m" (.num 2000) 2000 rfl (by decide) rfl (by decide) rfl
    (by decide) rfl
  exact ⟨h.1, h.2.2⟩

/-- Claim C2: a create or update request with a required field absent
(`title`, `actors`, `year`; for update also `id`) yields the 400
"Missing required fields" response and leaves the store unchanged. -/
theorem missing_required_field_rejected (conn : Bool) (s : Store) (b : Body) :
    ((b.title = none ∨ b.actors = none ∨ b.year = none) →
      POST conn s (some b) = (⟨400, .err "Missing required fields"⟩, s))
    ∧ ((b.id = none ∨ b.title = none ∨ b.actors = none ∨ b.year = none) →
      PUT conn s (some b) = (⟨400, .err "Missing required fields"⟩, s)) := by
  obtain ⟨iv, tv, av, yv⟩ := b
  rcases iv with _ | i0 <;> rcases tv with _ | t0 <;> rcases av with _ | a0 <;>
    rcases yv with _ | y0 <;>
      exact ⟨fun h => by simp_all [POST], fun h => by simp_all [PUT]⟩

/-- Witness for C2 at concrete inputs: `year` absent on create, `id`
absent on update. -/
theorem missing_required_field_rejected_witness :
    POST true ⟨0, []⟩ (some ⟨none, some (.str "T"), some (.arr ["A"]), none⟩)
      = (⟨400, .err "Missing required fields"⟩, ⟨0, []⟩)
    ∧ PUT true ⟨0, []⟩
        (some ⟨none, some (.str "T"), some (.arr ["A"]), some (.num 2000)⟩)
      = (⟨400, .err "Missing required fields"⟩, ⟨0, []⟩) :=
  ⟨(missing_required_field_rejected true ⟨0, []⟩
      ⟨none, some (.str "T"), some (.arr ["A"]), none⟩).1 (Or.inr (Or.inr rfl)),
   (missing_required_field_rejected true ⟨0, []⟩
      ⟨none, some (.str "T"), some (.arr ["A"]), some (.num 2000)⟩).2 (Or.inl rfl)⟩

/-- Claim C3 (amended): a non-numeric `year` on create or update is not
detected by the handlers' validation; `parseInt` yields `NaN`, the store
rejects the ill-typed write, and the request surfaces as the generic 500
store-failure response with the store unchanged — so no non-numeric year
is ever silently persisted, but the rejection is not a 400
`ValidationError`. -/
theorem nonnumeric_year_surfaces_as_500
    (conn : Bool) (s : Store) (b : Body) (t a y : JsonVal)
    (ht : b.title = some t) (ha : b.actors = some a) (hy : b.year = some y)
    (htt : t.truthy = true) (hat : a.truthy = true) (hyt : y.truthy = true)
    (hnan : parseIntJS y = none) :
    POST conn s (some b) = (⟨500, .err "Failed to add movie"⟩, s)
    ∧ (∀ i : JsonVal, b.id = some i → i.truthy = true →
        PUT conn s (some b) = (⟨500, .err "Failed to update movie"⟩, s)) := by
  constructor
  · obtain ⟨e, he⟩ := storeCreate_year_none conn s
      ⟨t, normalizeActors a, parseIntJS y⟩ (by simp [hnan])
    simp [POST, ht, ha, hy, htt, hat, hyt, he]
  · intro i hid hit
    obtain ⟨e, he⟩ := storeUpdate_year_none conn s i
      ⟨t, normalizeActors a, parseIntJS y⟩ (by simp [hnan])
    simp [PUT, hid, ht, ha, hy, hit, htt, hat, hyt, he]

/-- Claim C3 counterexample: POST with `year = "abc"` (title and actors
valid) returns status 500, not the 400 of a `ValidationError`, so the
non-numeric year is not treated as a validation failure. -/
theorem nonnumeric_year_not_validation_error :
    (POST true ⟨0, []⟩
        (some ⟨none, some (.str "T"), some (.arr ["A"]), some (.str "abc")⟩)).1.status = 500
    ∧ (POST true ⟨0, []⟩
        (some ⟨none, some (.str "T"), some (.arr ["A"]), some (.str "abc")⟩)).1.status ≠ 400
    ∧ (POST true ⟨0, []⟩
        (some ⟨none, some (.str "T"), some (.arr ["A"]), some (.str "abc")⟩)).2
      = ⟨0, []⟩ := by decide

/-- Witness for the amended C3 at a concrete input. -/
theorem nonnumeric_year_surfaces_as_500_witness :
    POST true ⟨0, []⟩
        (some ⟨some (.str "m"), some (.str "T"), some (.arr ["A"]), some (.str "abc")⟩)
      = (⟨500, .err "Failed to add movie"⟩, ⟨0, []⟩)
    ∧ PUT true ⟨0, []⟩
        (some ⟨some (.str "m"), some (.str "T"), some (.arr ["A"]), some (.str "abc")⟩)
      = (⟨500, .err "Failed to update movie"⟩, ⟨0, []⟩) := by
  have h := nonnumeric_year_surfaces_as_500 true ⟨0, []⟩
    ⟨some (.str "m"), some (.str "T"), some (.arr ["A"]), some (.str "abc")⟩
    (.str "T") (.arr ["A"]) (.str "abc") rfl rfl rfl (by decide) (by decide)
    (by decide) (by decide)
  exact ⟨h.1, h.2 (.str "m") rfl (by decide)⟩

/-- Claim C4 (amended): a movie record is written to the store only when
`title`, `actors` and `year` (and `id` for update) are all present and
truthy; the `actors` sequence may however be empty when the field is
supplied as an empty array, since normalization applies only to strings. -/
theorem record_written_only_when_fields_truthy
    (conn : Bool) (s : Store) (req : Option Body) :
    ((POST conn s req).2 ≠ s →
      ∃ b t a y, req = some b ∧ b.title = some t ∧ b.actors = some a
        ∧ b.year = some y
        ∧ t.truthy = true ∧ a.truthy = true ∧ y.truthy = true)
    ∧ ((PUT conn s req).2 ≠ s →
      ∃ b i t a y, req = some b ∧ b.id = some i ∧ b.title = some t
        ∧ b.actors = some a ∧ b.year = some y
        ∧ i.truthy = true ∧ t.truthy = true ∧ a.truthy = true
        ∧ y.truthy = true) := by
  constructor
  · intro hne
    rcases req with _ | ⟨iv, tv, av, yv⟩
    · simp [POST] at hne
    rcases tv with _ | t0
    · simp [POST] at hne
    rcases av with _ | a0
    · simp [POST] at hne
    rcases yv with _ | y0
    · simp [POST] at hne
    cases hcond : (t0.truthy && a0.truthy && y0.truthy)
    · rw [show (POST conn s (some ⟨iv, some t0, some a0, some y0⟩)).2 = s by
        simp [POST, hcond]] at hne
      exact absurd rfl hne
    · simp only [Bool.and_eq_true] at hcond
      exact ⟨⟨iv, some t0, some a0, some y0⟩, t0, a0, y0, rfl, rfl, rfl, rfl,
        hcond.1.1, hcond.1.2, hcond.2⟩
  · intro hne
    rcases req with _ | ⟨iv, tv, av, yv⟩
    · simp [PUT] at hne
    rcases iv with _ | i0
    · simp [PUT] at hne
    rcases tv with _ | t0
    · simp [PUT] at hne
    rcases av with _ | a0
    · simp [PUT] at hne
    rcases yv with _ | y0
    · simp [PUT] at hne
    cases hcond : (i0.truthy && t0.truthy && a0.truthy && y0.truthy)
    · rw [show (PUT conn s (some ⟨some i0, some t0, some a0, some y0⟩)).2 = s by
        simp [PUT, hcond]] at hne
      exact absurd rfl hne
    · simp only [Bool.and_eq_true] at hcond
      exact ⟨⟨some i0, some t0, some a0, some y0⟩, i0, t0, a0, y0, rfl, rfl,
        rfl, rfl, rfl, hcond.1.1.1, hcond.1.1.2, hcond.1.2, hcond.2⟩

/-- Claim C4 counterexample: `actors` supplied as the empty array passes
the truthiness check and a record whose `actors` sequence is empty after
normalization is persisted, violating the claimed invariant. -/
theorem empty_actors_array_persisted_counterexample :
    (POST true ⟨0, []⟩
        (some ⟨none, some (.str "T"), some (.arr []), some (.num 2000)⟩)).1.status = 201
    ∧ (POST true ⟨0, []⟩
        (some ⟨none, some (.str "T"), some (.arr []), some (.num 2000)⟩)).2.records
      = [⟨mkId 0, "T", [], 2000⟩] := by decide

/-- Witness for the amended C4 at a concrete input where the store does
change. -/
theorem record_written_only_when_fields_truthy_witness :
    ∃ b t a y,
      (some ⟨none, some (.str "T"), some (.arr ["A"]), some (.num 2000)⟩ :
          Option Body) = some b
      ∧ b.title = some t ∧ b.actors = some a ∧ b.year = some y
      ∧ t.truthy = true ∧ a.truthy = true ∧ y.truthy = true :=
  (record_written_only_when_fields_truthy true ⟨0, []⟩
    (some ⟨none, some (.str "T"), some (.arr ["A"]), some (.num 2000)⟩)).1
    (by decide)

/-- Claim C5: an update whose `id` matches no stored record does not
silently succeed: the store's not-found failure is caught and surfaced as
the generic 500 response (indistinguishable from a generic store failure),
with the store unchanged — observably different from the 200 success. -/
theorem update_unknown_id_returns_500
    (s : Store) (b : Body) (i : String) (t a y : JsonVal)
    (hid : b.id = some (.str i)) (hi : i ≠ "")
    (ht : b.title = some t) (ha : b.actors = some a) (hy : b.year = some y)
    (htt : t.truthy = true) (hat : a.truthy = true) (hyt : y.truthy = true)
    (hmiss : ∀ m ∈ s.records, m.id ≠ i) :
    PUT true s (some b) = (⟨500, .err "Failed to update movie"⟩, s)
    ∧ (500 : Nat) ≠ 200 := by
  have hi' : (JsonVal.str i).truthy = true := by simp [JsonVal.truthy, hi]
  have hany : s.records.any (fun m => m.id == i) = false := by
    rw [List.any_eq_false]
    intro m hm
    simpa using hmiss m hm
  refine ⟨?_, by decide⟩
  rcases hpy : parseIntJS y with _ | yv <;> rcases t with t0 | t1 | t2 <;>
    rcases a with a0 | a1 | a2 <;>
      simp [PUT, hid, ht, ha, hy, hi', htt, hat, hyt, storeUpdate,
        normalizeActors, hpy, hany]

/-- Witness for C5 at a concrete input: updating id `"zz"` in a store
holding only id `"m"`. -/
theorem update_unknown_id_returns_500_witness :
    PUT true ⟨1, [⟨"m", "T", ["A"], 2000⟩]⟩
        (some ⟨some (.str "zz"), some (.str "U"), some (.arr ["B"]), some (.num 2001)⟩)
      = (⟨500, .err "Failed to update movie"⟩, ⟨1, [⟨"m", "T", ["A"], 2000⟩]⟩) :=
  (update_unknown_id_returns_500 ⟨1, [⟨"m", "T", ["A"], 2000⟩]⟩
    ⟨some (.str "zz"), some (.str "U"), some (.arr ["B"]), some (.num 2001)⟩
    "zz" (.str "U") (.arr ["B"]) (.num 2001) rfl (by decide) rfl rfl rfl
    (by decide) (by decide) (by decide) (by decide)).1

/-- Claim C6: for every valid `{title, actors, year}` input, create
followed by listAll yields a list containing exactly one record carrying
the newly assigned id — an id that is non-empty and not previously in the
store — and that record's content fields are the (normalized) input. -/
theorem create_then_list_has_unique_new_record
    (s : Store) (b : Body) (t : String) (a y : JsonVal)
    (xs : List String) (yv : Int)
    (hwf : Store.WF s)
    (ht : b.title = some (.str t)) (htt : t ≠ "")
    (ha : b.actors = some a) (hat : a.truthy = true)
    (hna : normalizeActors a = .arr xs)
    (hy : b.year = some y) (hyt : y.truthy = true)
    (hyv : parseIntJS y = some yv) :
    ∃ newId,
      newId ≠ "" ∧ newId ∉ s.records.map Movie.id
      ∧ (POST true s (some b)).1 = ⟨201, .movie ⟨newId, t, xs, yv⟩⟩
      ∧ (POST true s (some b)).2.records.filter (fun m => m.id == newId)
          = [⟨newId, t, xs, yv⟩] := by
  have htt' : (JsonVal.str t).truthy = true := by simp [JsonVal.truthy, htt]
  have hfresh : ∀ m ∈ s.records, (m.id == mkId s.counter) = false := by
    intro m hm
    have h1 := (hwf m hm).2
    have h2 : m.id ≠ mkId s.counter := by
      intro he
      rw [he, mkId_length] at h1
      omega
    simpa using h2
  have hcreate : storeCreate true s ⟨.str t, normalizeActors a, parseIntJS y⟩
      = .ok (⟨s.counter + 1, s.records ++ [⟨mkId s.counter, t, xs, yv⟩]⟩,
             ⟨mkId s.counter, t, xs, yv⟩) := by
    rw [hna, hyv]
    rfl
  have hpost : POST true s (some b)
      = (⟨201, .movie ⟨mkId s.counter, t, xs, yv⟩⟩,
         ⟨s.counter + 1, s.records ++ [⟨mkId s.counter, t, xs, yv⟩]⟩) := by
    simp [POST, ht, ha, hy, htt', hat, hyt, hcreate]
  refine ⟨mkId s.counter, mkId_ne_empty _, ?_, ?_, ?_⟩
  · intro hmem
    rcases List.mem_map.1 hmem with ⟨m, hm, hidm⟩
    have := hfresh m hm
    rw [hidm] at this
    simp at this
  · rw [hpost]
  · rw [hpost]
    have h0 : s.records.filter (fun m => m.id == mkId s.counter) = [] :=
      List.filter_eq_nil_iff.2 (by intro m hm; simp [hfresh m hm])
    simp [List.filter_append, h0]

/-- Witness for C6 at a concrete input from the empty store. -/
theorem create_then_list_has_unique_new_record_witness :
    ∃ newId,
      newId ≠ ""
      ∧ newId ∉ (⟨0, []⟩ : Store).records.map Movie.id
      ∧ (POST true ⟨0, []⟩
          (some ⟨none, some (.str "Inception"), some (.str "Leo, Tom"),
            some (.str "2010")⟩)).1
        = ⟨201, .movie ⟨newId, "Inception", ["Leo", "Tom"], 2010⟩⟩
      ∧ (POST true ⟨0, []⟩
          (some ⟨none, some (.str "Inception"), some (.str "Leo, Tom"),
            some (.str "2010")⟩)).2.records.filter (fun m => m.id == newId)
        = [⟨newId, "Inception", ["Leo", "Tom"], 2010⟩] :=
  create_then_list_has_unique_new_record ⟨0, []⟩
    ⟨none, some (.str "Inception"), some (.str "Leo, Tom"), some (.str "2010")⟩
    "Inception" (.str "Leo, Tom") (.str "2010") ["Leo", "Tom"] 2010
    (by intro m hm; simp at hm) rfl (by decide) rfl (by decide) (by decide)
    rfl (by decide) (by decide)

/-- Claim C7: a delete request that succeeds (returns 200) leaves a store
in which no record carries the deleted `id`, so a subsequent listAll
returns no record with that `id`. -/
theorem delete_then_list_omits_id
    (conn : Bool) (s : Store) (b : Body) (i : String)
    (hid : b.id = some (.str i))
    (hok : (DELETE conn s (some b)).1.status = 200) :
    ∀ m ∈ (DELETE conn s (some b)).2.records, m.id ≠ i := by
  by_cases hi : i = ""
  · exfalso
    subst hi
    simp [DELETE, hid, JsonVal.truthy] at hok
  · have htr : (JsonVal.str i).truthy = true := by simp [JsonVal.truthy, hi]
    cases conn
    · exfalso
      simp [DELETE, hid, htr, storeDelete] at hok
    · cases hany : s.records.any (fun m0 => m0.id == i)
      · exfalso
        simp [DELETE, hid, htr, storeDelete, hany] at hok
      · have hdel : DELETE true s (some b)
            = (⟨200, .msg "Movie deleted successfully"⟩,
               ⟨s.counter, s.records.filter (fun m0 => m0.id != i)⟩) := by
          simp [DELETE, hid, htr, storeDelete, hany]
        rw [hdel]
        intro m hm
        simpa using (List.mem_filter.1 hm).2

/-- Witness for C7: deleting the only record of a one-record store. -/
theorem delete_then_list_omits_id_witness :
    (DELETE true ⟨1, [⟨"m", "T", ["A"], 2000⟩]⟩
        (some ⟨some (.str "m"), none, none, none⟩)).1.status = 200
    ∧ ∀ m ∈ (DELETE true ⟨1, [⟨"m", "T", ["A"], 2000⟩]⟩
        (some ⟨some (.str "m"), none, none, none⟩)).2.records, m.id ≠ "m" :=
  ⟨by decide,
   delete_then_list_omits_id true ⟨1, [⟨"m", "T", ["A"], 2000⟩]⟩
     ⟨some (.str "m"), none, none, none⟩ "m" rfl (by decide)⟩

/-- Claim C8: the client UI reconciles its local movie list from the
server response: on successful create the returned record is appended; on
successful update the entry whose `id` matches the returned record is
replaced; on successful delete the entry with the deleted `id` is removed;
on any non-success response a failure alert is shown and the list is left
unchanged. -/
theorem ui_reconciliation
    (movies : List Movie) (ret e : Movie) (ed : Option Movie) (i : String) :
    handleSubmit movies none true ret = ⟨movies ++ [ret], false⟩
    ∧ handleSubmit movies (some e) true ret
        = ⟨movies.map (fun m => if m.id == ret.id then ret else m), false⟩
    ∧ handleDelete movies true i = ⟨movies.filter (fun m => m.id != i), false⟩
    ∧ (∀ m ∈ (handleDelete movies true i).movies, m.id ≠ i)
    ∧ handleSubmit movies ed false ret = ⟨movies, true⟩
    ∧ handleDelete movies false i = ⟨movies, true⟩ := by
  refine ⟨rfl, rfl, rfl, ?_, ?_, rfl⟩
  · intro m hm
    simpa using (List.mem_filter.1 hm).2
  · cases ed <;> rfl

/-- Witness for C8 at a concrete two-record list. -/
theorem ui_reconciliation_witness :
    handleSubmit [⟨"a", "A", ["x"], 1⟩] none true ⟨"b", "B", ["y"], 2⟩
      = ⟨[⟨"a", "A", ["x"], 1⟩, ⟨"b", "B", ["y"], 2⟩], false⟩
    ∧ (∀ m ∈ (handleDelete [⟨"a", "A", ["x"], 1⟩] true "a").movies,
        m.id ≠ "a")
    ∧ handleDelete [⟨"a", "A", ["x"], 1⟩] false "a"
      = ⟨[⟨"a", "A", ["x"], 1⟩], true⟩ := by
  have h := ui_reconciliation [⟨"a", "A", ["x"], 1⟩] ⟨"b", "B", ["y"], 2⟩
    ⟨"a", "A", ["x"], 1⟩ none "a"
  exact ⟨h.1, h.2.2.2.1, h.2.2.2.2.2⟩

/-- Claim C9 (implicit truthiness): a request whose `year` is the number 0
or whose `title` is the empty string is rejected with the 400
"Missing required fields" response exactly as if the field were absent,
while `actors` supplied as an array — even the empty array — passes the
truthiness check (a POST with `actors: []` and valid other fields
reaches the store and returns 201). -/
theorem truthiness_check_edge_cases (conn : Bool) (s : Store) (b : Body) :
    (b.year = some (.num 0) →
      POST conn s (some b) = (⟨400, .err "Missing required fields"⟩, s)
      ∧ PUT conn s (some b) = (⟨400, .err "Missing required fields"⟩, s))
    ∧ (b.title = some (.str "") →
      POST conn s (some b) = (⟨400, .err "Missing required fields"⟩, s)
      ∧ PUT conn s (some b) = (⟨400, .err "Missing required fields"⟩, s))
    ∧ (∀ xs : List String, (JsonVal.arr xs).truthy = true)
    ∧ (POST true s
        (some ⟨none, some (.str "T"), some (.arr []), some (.num 2000)⟩)).1.status
      = 201 := by
  obtain ⟨iv, tv, av, yv⟩ := b
  refine ⟨?_, ?_, fun xs => rfl, ?_⟩
  · rintro rfl
    constructor
    · rcases tv with _ | t0 <;> rcases av with _ | a0 <;>
        simp [POST, JsonVal.truthy]
    · rcases iv with _ | i0 <;> rcases tv with _ | t0 <;> rcases av with _ | a0 <;>
        simp [PUT, JsonVal.truthy]
  · rintro rfl
    constructor
    · rcases av with _ | a0 <;> rcases yv with _ | y0 <;>
        simp [POST, JsonVal.truthy]
    · rcases iv with _ | i0 <;> rcases av with _ | a0 <;> rcases yv with _ | y0 <;>
        simp [PUT, JsonVal.truthy]
  · rfl

/-- Witness for C9 at concrete inputs: `year = 0` and `title = ""` are
rejected as missing. -/
theorem truthiness_check_edge_cases_witness :
    POST true ⟨0, []⟩
        (some ⟨none, some (.str "T"), some (.arr ["A"]), some (.num 0)⟩)
      = (⟨400, .err "Missing required fields"⟩, ⟨0, []⟩)
    ∧ PUT true ⟨0, []⟩
        (some ⟨some (.str "m"), some (.str ""), some (.arr ["A"]), some (.num 2000)⟩)
      = (⟨400, .err "Missing required fields"⟩, ⟨0, []⟩) :=
  ⟨((truthiness_check_edge_cases true ⟨0, []⟩
      ⟨none, some (.str "T"), some (.arr ["A"]), some (.num 0)⟩).1 rfl).1,
   ((truthiness_check_edge_cases true ⟨0, []⟩
      ⟨some (.str "m"), some (.str ""), some (.arr ["A"]), some (.num 2000)⟩).2.1
      rfl).2⟩

/-- Claim C10: every handler is total over the modelled exceptions (body
parse failure, store failure of any kind): for every connectivity state,
store and request it returns exactly one response, whose status code lies
in {200, 201, 400, 500}. -/
theorem handlers_return_known_status
    (conn : Bool) (s : Store) (req : Option Body) :
    ((GET conn s).status = 200 ∨ (GET conn s).status = 500)
    ∧ ((POST conn s req).1.status = 201 ∨ (POST conn s req).1.status = 400
        ∨ (POST conn s req).1.status = 500)
    ∧ ((PUT conn s req).1.status = 200 ∨ (PUT conn s req).1.status = 400
        ∨ (PUT conn s req).1.status = 500)
    ∧ ((DELETE conn s req).1.status = 200 ∨ (DELETE conn s req).1.status = 400
        ∨ (DELETE conn s req).1.status = 500) := by
  refine ⟨?_, ?_, ?_, ?_⟩
  · cases conn <;> simp [GET, storeFindMany]
  · rcases req with _ | ⟨iv, tv, av, yv⟩
    · simp [POST]
    rcases tv with _ | t0
    · simp [POST]
    rcases av with _ | a0
    · simp [POST]
    rcases yv with _ | y0
    · simp [POST]
    cases hcond : (t0.truthy && a0.truthy && y0.truthy)
    · simp [POST, hcond]
    · rcases hres : storeCreate conn s ⟨t0, normalizeActors a0, parseIntJS y0⟩
        with e | ⟨s2, m⟩ <;> simp [POST, hcond, hres]
  · rcases req with _ | ⟨iv, tv, av, yv⟩
    · simp [PUT]
    rcases iv with _ | i0
    · simp [PUT]
    rcases tv with _ | t0
    · simp [PUT]
    rcases av with _ | a0
    · simp [PUT]
    rcases yv with _ | y0
    · simp [PUT]
    cases hcond : (i0.truthy && t0.truthy && a0.truthy && y0.truthy)
    · simp [PUT, hcond]
    · rcases hres : storeUpdate conn s i0 ⟨t0, normalizeActors a0, parseIntJS y0⟩
        with e | ⟨s2, m⟩ <;> simp [PUT, hcond, hres]
  · rcases req with _ | ⟨iv, tv, av, yv⟩
    · simp [DELETE]
    rcases iv with _ | i0
    · simp [DELETE]
    cases hcond : i0.truthy
    · simp [DELETE, hcond]
    · rcases hres : storeDelete conn s i0 with e | s2 <;> simp [DELETE, hcond, hres]

end MoviePortal
